import Mathlib

/-!
Shallow embedding of `book/tutorials/cloud-computing/atl08_parquet_helpers.py`
(class `ParquetTable`): the ATL08 HDF5-to-GeoParquet conversion helper.

Modelling conventions:
* machine floats carrying coordinates, times and data values are modelled as `ℚ`
  (the operations the code performs on them are comparisons, `min`/`max` and
  exact additions, which agree with real arithmetic on non-NaN floats);
* fallible Python code is modelled with `Except PyError`, where `PyError`
  enumerates the exception classes that can be raised;
* Python dicts are mutable heap objects; they are modelled by an explicit heap
  of address-keyed association lists, so that `dict.copy()` (a shallow copy)
  and in-place subscript assignment keep their Python aliasing semantics;
* h5py files/groups/datasets are modelled as a tree `H5Node`; dataset values
  are the array contents together with the on-disk chunk shape;
* the i/o boundary (opening files, reading bytes) is abstracted: a `Granule`
  carries the outcome of opening its primary data link.
-/

/-- Python exception kinds raised by the code, plus the two error names the
specification document introduces (`SchemaError`, `EmptyInputError`), which are
never raised by the code but are needed to state the spec's claims. -/
inductive PyError where
  | keyError
  | indexError
  | valueError
  | typeError
  | jsonDecodeError
  | zeroDivisionError
  | nameError
  | osError
  | schemaError
  | emptyInputError
  deriving DecidableEq

/-! ### JSON documents and the Python dict heap -/

/-- An immutable JSON parse tree (what `json.loads` would build, value-wise). -/
inductive JTree where
  | str (s : String)
  | num (q : ℚ)
  | arr (xs : List JTree)
  | obj (fields : List (String × JTree))

/-- A runtime Python value: strings, numbers and lists are immediate; dicts are
heap references, so aliasing and in-place mutation are observable. -/
inductive JVal where
  | str (s : String)
  | num (q : ℚ)
  | arr (xs : List JVal)
  | ref (a : Nat)

/-- The payload of one heap-allocated dict: an insertion-ordered assoc list. -/
abbrev DictObj := List (String × JVal)

/-- The dict heap: allocated objects keyed by address, plus the next fresh
address. -/
structure Heap where
  objs : List (Nat × DictObj)
  next : Nat

def Heap.lookup (h : Heap) (a : Nat) : Option DictObj :=
  (h.objs.find? (fun p => p.1 == a)).map (fun p => p.2)

def Heap.setObj (h : Heap) (a : Nat) (d : DictObj) : Heap :=
  { objs := h.objs.map (fun p => if p.1 == a then (a, d) else p), next := h.next }

def Heap.alloc (h : Heap) (d : DictObj) : Nat × Heap :=
  (h.next, { objs := h.objs ++ [(h.next, d)], next := h.next + 1 })

def emptyHeap : Heap := { objs := [], next := 0 }

/-- Python dict update `d[k] = v`: replaces in place if the key exists
(preserving insertion order), else appends — shared with schema metadata maps. -/
def assocSet {β : Type} (d : List (String × β)) (k : String) (v : β) : List (String × β) :=
  if d.any (fun kv => kv.1 == k) then d.map (fun kv => if kv.1 == k then (k, v) else kv)
  else d ++ [(k, v)]

/-! `allocTree`: allocate a parsed JSON tree into the heap (what `json.loads`
does: every JSON object becomes a fresh dict). -/
mutual
def allocTree (h : Heap) : JTree → Heap × JVal
  | .str s => (h, .str s)
  | .num q => (h, .num q)
  | .arr xs =>
      let (h2, vs) := allocTreeList h xs
      (h2, .arr vs)
  | .obj fs =>
      let (h2, kvs) := allocTreeFields h fs
      let (a, h3) := h2.alloc kvs
      (h3, .ref a)
def allocTreeList (h : Heap) : List JTree → Heap × List JVal
  | [] => (h, [])
  | t :: ts =>
      let (h2, v) := allocTree h t
      let (h3, vs) := allocTreeList h2 ts
      (h3, v :: vs)
def allocTreeFields (h : Heap) : List (String × JTree) → Heap × List (String × JVal)
  | [] => (h, [])
  | (k, t) :: ts =>
      let (h2, v) := allocTree h t
      let (h3, vs) := allocTreeFields h2 ts
      (h3, (k, v) :: vs)
end

/-- Resolve a runtime value back to a JSON tree, chasing dict references;
`fuel` bounds the total nesting depth visited, so a circular document always
exhausts it. -/
def resolveV (h : Heap) : Nat → JVal → Option JTree
  | 0, _ => none
  | _ + 1, .str s => some (.str s)
  | _ + 1, .num q => some (.num q)
  | fuel + 1, .arr xs => (xs.mapM (resolveV h fuel)).map JTree.arr
  | fuel + 1, .ref a =>
      match h.lookup a with
      | none => none
      | some d =>
          (d.mapM (fun kv => (resolveV h fuel kv.2).map (fun t => (kv.1, t)))).map JTree.obj

/-- Models `json.dumps` on a heap value: the serialized snapshot of the document.
The fuel budget covers every acyclic document whose plain (non-dict) values
nest at most a few levels between dict layers — which includes every document
this pipeline handles — while a circular document always exhausts any finite
budget, modelling the `ValueError` that `json.dumps` raises on circular
references. -/
def jsonDumps (h : Heap) (v : JVal) : Except PyError JTree :=
  match resolveV h (4 * (h.objs.length + 1) + 4) v with
  | some t => .ok t
  | none => .error .valueError

/-! ### numpy dtypes, Arrow types, schemas -/

/-- A numpy scalar dtype: a byte-order character and a kind code (`"f8"`, …). -/
structure NpDtype where
  byteorder : Char
  kind : String
  deriving DecidableEq

/-- Models `dtype.newbyteorder("=")`: same kind, native byte order. -/
def NpDtype.newbyteorderNative (d : NpDtype) : NpDtype :=
  { d with byteorder := '=' }

inductive ArrowType where
  | int8 | int16 | int32 | int64
  | uint8 | uint16 | uint32 | uint64
  | float32 | float64
  | binary | string | timestampNs
  | unsupported (kind : String)
  deriving DecidableEq

/-- Models `pa.from_numpy_dtype` on a native-byte-order scalar dtype. -/
def from_numpy_dtype (d : NpDtype) : ArrowType :=
  match d.kind with
  | "i1" => .int8
  | "i2" => .int16
  | "i4" => .int32
  | "i8" => .int64
  | "u1" => .uint8
  | "u2" => .uint16
  | "u4" => .uint32
  | "u8" => .uint64
  | "f4" => .float32
  | "f8" => .float64
  | k => .unsupported k

/-- One pyarrow schema field (named `PaField`: `Field` is taken by Mathlib). -/
structure PaField where
  name : String
  type : ArrowType
  metadata : List (String × String) := []
  deriving DecidableEq

/-- A pyarrow schema: ordered fields plus a custom metadata map (the code only
ever stores the `geo` key, whose value is a serialized JSON document). -/
structure Schema where
  fields : List PaField
  metadata : List (String × JTree)

/-- Models `schema.with_metadata(m)`: a new schema value, same fields. -/
def Schema.with_metadata (s : Schema) (m : List (String × JTree)) : Schema :=
  { s with metadata := m }

/-! ### h5py files, groups and datasets -/

/-- Array contents of a dataset: one- or two-dimensional. -/
inductive DSData where
  | d1 (xs : List ℚ)
  | d2 (rows : List (List ℚ))
  deriving DecidableEq

/-- An HDF5 dataset: element dtype, contents, and the on-disk chunk shape
(`.chunks`; `[]` models an unchunked dataset). -/
structure Dataset where
  dtype : NpDtype
  dsdata : DSData
  chunks : List Nat
  deriving DecidableEq

/-- numpy `.size`: total element count. -/
def Dataset.size (d : Dataset) : Nat :=
  match d.dsdata with
  | .d1 xs => xs.length
  | .d2 rows => (rows.map List.length).sum

/-- An h5py file subtree: groups hold name-ordered children (h5py iterates
group members in increasing name order), leaves are datasets. -/
inductive H5Node where
  | group (children : List (String × H5Node))
  | dataset (ds : Dataset)

/-- Models `node[key]`: member lookup; `KeyError` when absent, `TypeError` when
subscripting a dataset with a string. -/
def nodeGet (n : H5Node) (key : String) : Except PyError H5Node :=
  match n with
  | .group children =>
      match children.lookup key with
      | some c => .ok c
      | none => .error .keyError
  | .dataset _ => .error .typeError

/-- Using a node as a dataset (slicing it): `TypeError` on a group. -/
def dsOf (n : H5Node) : Except PyError Dataset :=
  match n with
  | .dataset d => .ok d
  | .group _ => .error .typeError

/-- Models `dataset[0]` on a 1-d dataset; `IndexError` when empty. Indexing a 2-d
dataset would give a row whose later use in a scalar position raises. -/
def item0 (d : Dataset) : Except PyError ℚ :=
  match d.dsdata with
  | .d1 [] => .error .indexError
  | .d1 (x :: _) => .ok x
  | .d2 _ => .error .valueError

/-! ### Schema builder (`create_pyarrow_schema`, `datasets_to_fields`,
`ParquetTable.__init__`) -/

/-- Models `datasets_to_fields` (source lines 80-88): enumerate a group's member
datasets in name order, one field per dataset, scalar dtype normalized to
native byte order and converted to an Arrow type. -/
def datasets_to_fields (n : H5Node) : List PaField :=
  match n with
  | .dataset _ => []
  | .group children =>
      children.filterMap (fun kv =>
        match kv.2 with
        | .dataset d =>
            some { name := kv.1, type := from_numpy_dtype d.dtype.newbyteorderNative }
        | .group _ => none)

def geometry_field : PaField :=
  { name := "geometry", type := .binary,
    metadata := [("encoding", "WKB"), ("geometry_types", "POINT")] }

def timestamp_field : PaField := { name := "timestamp", type := .timestampNs }

def beam_field : PaField := { name := "beam", type := .string }

def strength_field : PaField := { name := "strength", type := .string }

/-- Models `ParquetTable.create_pyarrow_schema` (source lines 29-60): land-segment
dataset fields, then the appended synthetic fields geometry / timestamp /
beam / strength, then canopy fields, then terrain fields; the geometadata
document is serialized into the schema metadata under the `geo` key. -/
def create_pyarrow_schema (template_file : H5Node) (h : Heap) (geometadata : JVal) :
    Except PyError Schema :=
  match nodeGet template_file "gt1l" with
  | .error e => .error e
  | .ok gt1l =>
    match nodeGet gt1l "land_segments" with
    | .error e => .error e
    | .ok land_segments_group =>
      match nodeGet land_segments_group "canopy" with
      | .error e => .error e
      | .ok canopy_group =>
        match nodeGet land_segments_group "terrain" with
        | .error e => .error e
        | .ok terrain_group =>
          let land_segment_fields := datasets_to_fields land_segments_group
            ++ [geometry_field, timestamp_field, beam_field, strength_field]
          let canopy_fields := datasets_to_fields canopy_group
          let terrain_fields := datasets_to_fields terrain_group
          let fields := land_segment_fields ++ canopy_fields ++ terrain_fields
          match jsonDumps h geometadata with
          | .error e => .error e
          | .ok metadata => .ok { fields := fields, metadata := [("geo", metadata)] }

/-- The schema-builder object: the derived schema and the (heap-allocated)
geometadata document it retains. -/
structure ParquetTable where
  schema : Schema
  geometadata : JVal

/-- Models `ParquetTable.__init__` (source lines 23-27). The geometadata file is given
as its parse outcome (`none` models text `json.loads` rejects, raising
`JSONDecodeError`); the parsed document is allocated as fresh dicts; the
template file is given as its h5py tree. -/
def ParquetTable.init (geoParsed : Option JTree) (template_file : H5Node) (h : Heap) :
    Except PyError (ParquetTable × Heap) :=
  match geoParsed with
  | none => .error .jsonDecodeError
  | some t =>
      let (h1, gv) := allocTree h t
      match create_pyarrow_schema template_file h1 gv with
      | .error e => .error e
      | .ok schema => .ok ({ schema := schema, geometadata := gv }, h1)

/-! ### Spatial envelope (`result_bbox`, `results_bounds`) -/

/-- One polygon vertex from a granule's advertised boundary. -/
structure GPoint where
  Longitude : ℚ
  Latitude : ℚ
  deriving DecidableEq

/-- One granule: its first polygon's boundary points
(`result["umm"]["SpatialExtent"]["HorizontalSpatialDomain"]["Geometry"]
["GPolygons"][0]["Boundary"]["Points"]`), and the outcome of opening its
primary data link (`fs.open` + `h5py.File`). -/
structure Granule where
  points : List GPoint
  file : Except PyError H5Node

/-- An axis-aligned box, as built by `shapely.geometry.box`. -/
structure Box where
  minx : ℚ
  miny : ℚ
  maxx : ℚ
  maxy : ℚ
  deriving DecidableEq

/-- Python `min` over a list; raises `ValueError` on an empty sequence. -/
def pymin : List ℚ → Except PyError ℚ
  | [] => .error .valueError
  | x :: xs => .ok (xs.foldl min x)

/-- Python `max` over a list; raises `ValueError` on an empty sequence. -/
def pymax : List ℚ → Except PyError ℚ
  | [] => .error .valueError
  | x :: xs => .ok (xs.foldl max x)

/-- Models `ParquetTable.result_bbox` (source lines 62-71): min/max of the vertex
longitudes/latitudes, boxed. -/
def result_bbox (result : Granule) : Except PyError Box :=
  let points := result.points
  let longitudes := points.map GPoint.Longitude
  let latitudes := points.map GPoint.Latitude
  match pymin longitudes with
  | .error e => .error e
  | .ok min_lon =>
    match pymin latitudes with
    | .error e => .error e
    | .ok min_lat =>
      match pymax longitudes with
      | .error e => .error e
      | .ok max_lon =>
        match pymax latitudes with
        | .error e => .error e
        | .ok max_lat =>
          .ok { minx := min_lon, miny := min_lat, maxx := max_lon, maxy := max_lat }

/-- The envelope of the union of two axis-aligned boxes: componentwise join.
`shapely` `a.union(b)` followed by `.envelope.bounds` computes exactly this on
axis-aligned boxes, and the loop in `results_bounds` only ever inspects the
accumulated geometry through `.envelope.bounds`, so the accumulator is carried
as its envelope box. -/
def boxJoin (a b : Box) : Box :=
  { minx := min a.minx b.minx, miny := min a.miny b.miny,
    maxx := max a.maxx b.maxx, maxy := max a.maxy b.maxy }

/-- One pass of the union loop `union_bbox = union_bbox.union(bbox)` (with the
union carried as its envelope box). -/
def bbox_union_step (acc : Except PyError Box) (result : Granule) : Except PyError Box :=
  match acc with
  | .error e => .error e
  | .ok union_bbox =>
    match result_bbox result with
    | .error e => .error e
    | .ok bbox => .ok (boxJoin union_bbox bbox)

/-- Models `ParquetTable.results_bounds` (source lines 73-78): seed with the first
granule's box (`results[0]`: `IndexError` on an empty list), fold the union
over all granules, return `[min_lon, min_lat, max_lon, max_lat]`. -/
def results_bounds (results : List Granule) : Except PyError (List ℚ) :=
  match results with
  | [] => .error .indexError
  | r0 :: _ =>
    match result_bbox r0 with
    | .error e => .error e
    | .ok union_bbox0 =>
      match results.foldl bbox_union_step (.ok union_bbox0) with
      | .error e => .error e
      | .ok union_bbox => .ok [union_bbox.minx, union_bbox.miny, union_bbox.maxx, union_bbox.maxy]

/-! ### Beam strength (source lines 107-115) -/

/-- The `if`/`elif` chain classifying beam strength from the spacecraft
orientation flag and the beam name's last character (`beam[-1]`; the six beam
names are all nonempty, so `String.back` agrees with Python's `beam[-1]`). -/
def beam_strength (orientation : ℚ) (beam : String) : String :=
  if orientation = 0 ∧ beam.back = 'l' then "strong"
  else if orientation = 1 ∧ beam.back = 'r' then "strong"
  else if orientation = 2 then "degraded"
  else "weak"

/-! ### Per-granule beam converter (`get_group_chunks`, `chunks_to_tables`) -/

/-- One cell of an output column: dataset numbers, WKB-encoded points
(`shapely.to_wkb(shapely.Point(lon, lat), flavor="iso")`), timestamps
(seconds since the Unix epoch), or strings. -/
inductive CellVal where
  | num (q : ℚ)
  | wkbPoint (lon lat : ℚ)
  | timestamp (secs : ℚ)
  | str (s : String)
  deriving DecidableEq

abbrev Column := List CellVal

/-- An Arrow table as `pa.Table.from_arrays` builds it: named columns in
schema order. -/
abbrev PaTable := List (String × Column)

/-- Models `pd.to_datetime('1980-01-06 00:00:00')` as seconds since the Unix epoch. -/
def GPS_EPOCH : ℚ := 315964800

/-- Models `xs[offset : offset + chunk_size]` on a 1-d array. -/
def slice1 (xs : List ℚ) (offset chunk_size : Nat) : List ℚ :=
  (xs.drop offset).take chunk_size

/-- Column 0 of a block of 2-d rows (`dset[offset:offset+chunk_size, 0]`);
an empty row makes the index raise. -/
def firstColumn : List (List ℚ) → Except PyError (List ℚ)
  | [] => .ok []
  | row :: rest =>
      match row with
      | [] => .error .indexError
      | x :: _ =>
          match firstColumn rest with
          | .error e => .error e
          | .ok xs => .ok (x :: xs)

/-- Worker for `get_group_chunks`, walking the group members in name order:
one column per member dataset, sliced at `offset`; datasets with a
two-dimensional chunk layout contribute their first column only; members whose
chunk rank is neither 1 nor 2 are silently skipped, exactly as the source's
`if`/`elif` with no `else` does. A chunk rank that contradicts the data rank
cannot arise in h5py (chunk rank always equals dataset rank) and is modelled
as `TypeError`. -/
def get_group_chunks_list : List (String × H5Node) → Nat → Nat → Except PyError (List Column)
  | [], _, _ => .ok []
  | (_, n) :: rest, offset, chunk_size =>
    match n with
    | .group _ => get_group_chunks_list rest offset chunk_size
    | .dataset d =>
      if d.chunks.length = 1 then
        match d.dsdata with
        | .d1 xs =>
            match get_group_chunks_list rest offset chunk_size with
            | .error e => .error e
            | .ok cols => .ok (((slice1 xs offset chunk_size).map CellVal.num) :: cols)
        | .d2 _ => .error .typeError
      else if d.chunks.length = 2 then
        match d.dsdata with
        | .d2 rows =>
            match firstColumn ((rows.drop offset).take chunk_size) with
            | .error e => .error e
            | .ok col =>
                match get_group_chunks_list rest offset chunk_size with
                | .error e => .error e
                | .ok cols => .ok ((col.map CellVal.num) :: cols)
        | .d1 _ => .error .typeError
      else get_group_chunks_list rest offset chunk_size

/-- Models `ParquetTable.get_group_chunks` (source lines 90-99). -/
def get_group_chunks (group : H5Node) (offset chunk_size : Nat) : Except PyError (List Column) :=
  match group with
  | .dataset _ => .error .typeError
  | .group children => get_group_chunks_list children offset chunk_size

/-- Slice a 1-d dataset; the latitude / longitude / delta_time datasets are
one-dimensional (a 2-d one would make the per-row arithmetic raise). -/
def sliceD1 (d : Dataset) (offset chunk_size : Nat) : Except PyError (List ℚ) :=
  match d.dsdata with
  | .d1 xs => .ok (slice1 xs offset chunk_size)
  | .d2 _ => .error .typeError

/-- The body of the `for n in range(number_of_chunks)` loop (source lines
130-154): the group's dataset columns for this chunk, then the geometry column
(one WKB point per latitude/longitude pair, `Point(lon, lat)`), then the
timestamp column (`GPS_EPOCH + delta_time + atlas_sdp_gps_epoch` seconds),
then the constant beam and strength columns, each sized to the geometry
column. -/
def build_land_segment_chunks (land_segments_group : H5Node) (beam strength : String)
    (atlas_sdp_gps_epoch : ℚ) (offset chunk_size : Nat) : Except PyError (List Column) :=
  match get_group_chunks land_segments_group offset chunk_size with
  | .error e => .error e
  | .ok land_segment_chunks =>
    match nodeGet land_segments_group "latitude" with
    | .error e => .error e
    | .ok latN =>
      match dsOf latN with
      | .error e => .error e
      | .ok latD =>
        match sliceD1 latD offset chunk_size with
        | .error e => .error e
        | .ok lats =>
          match nodeGet land_segments_group "longitude" with
          | .error e => .error e
          | .ok lonN =>
            match dsOf lonN with
            | .error e => .error e
            | .ok lonD =>
              match sliceD1 lonD offset chunk_size with
              | .error e => .error e
              | .ok lons =>
                let geometries := (lats.zip lons).map
                  (fun p => CellVal.wkbPoint p.2 p.1)
                match nodeGet land_segments_group "delta_time" with
                | .error e => .error e
                | .ok dtN =>
                  match dsOf dtN with
                  | .error e => .error e
                  | .ok dtD =>
                    match sliceD1 dtD offset chunk_size with
                    | .error e => .error e
                    | .ok deltas =>
                      let timestamps := deltas.map
                        (fun delta_time =>
                          CellVal.timestamp (GPS_EPOCH + delta_time + atlas_sdp_gps_epoch))
                      let beam_values : Column :=
                        List.replicate geometries.length (CellVal.str beam)
                      let strength_values : Column :=
                        List.replicate geometries.length (CellVal.str strength)
                      .ok (land_segment_chunks ++
                        [geometries, timestamps, beam_values, strength_values])

/-- Run the chunk loop over the given chunk indices, keeping only the final
iteration's `offset` and `land_segment_chunks`: the table assembly in the
source (lines 156-160) sits outside the `for` loop, so earlier iterations
only matter through any exception they raise. The empty index list cannot be
reached (`number_of_chunks` is at least 1); Python would raise `NameError` on
the unbound `offset` there. -/
def run_chunk_loop (land_segments_group : H5Node) (beam strength : String)
    (atlas_sdp_gps_epoch : ℚ) (chunk_size : Nat) :
    List Nat → Except PyError (Nat × List Column)
  | [] => .error .nameError
  | [n] =>
      let offset := n * chunk_size
      match build_land_segment_chunks land_segments_group beam strength
          atlas_sdp_gps_epoch offset chunk_size with
      | .error e => .error e
      | .ok land_segment_chunks => .ok (offset, land_segment_chunks)
  | n :: n2 :: rest =>
      let offset := n * chunk_size
      match build_land_segment_chunks land_segments_group beam strength
          atlas_sdp_gps_epoch offset chunk_size with
      | .error e => .error e
      | .ok _ => run_chunk_loop land_segments_group beam strength
          atlas_sdp_gps_epoch chunk_size (n2 :: rest)

/-- Source line 127: `number_of_chunks = (size // chunk_size) + 1`. -/
def number_of_chunks (size chunk_size : Nat) : Nat :=
  size / chunk_size + 1

/-- All columns have one length (`pa.Table.from_arrays` rejects ragged
columns). -/
def columns_same_length : List Column → Bool
  | [] => true
  | c :: cs => cs.all (fun c2 => c2.length == c.length)

/-- Models `pa.Table.from_arrays(chunks, schema=group_schema)`: succeeds only when
the array count matches the schema's field count (and the columns agree in
length), naming the columns positionally from the schema. pyarrow also
type-checks each array against its field; omitting that check can only let the
model produce a table where pyarrow would raise, never change a produced
table. -/
def from_arrays (chunks : List Column) (schema : Schema) : Except PyError PaTable :=
  if chunks.length = schema.fields.length ∧ columns_same_length chunks then
    .ok ((schema.fields.map PaField.name).zip chunks)
  else .error .valueError

/-- Models `ParquetTable.chunks_to_tables` (source lines 101-161). Note the source's
layout: the canopy/terrain slicing and the table construction (lines 156-160)
are indented at the `for` loop's level, not inside it, so exactly one table is
built, from the final iteration's `offset` and `land_segment_chunks`. -/
def chunks_to_tables (result : Granule) (beam : String) (group_schema : Schema) :
    Except PyError (List PaTable) :=
  match result.file with
  | .error e => .error e
  | .ok file =>
    match nodeGet file "orbit_info" with
    | .error e => .error e
    | .ok orbit_info =>
      match nodeGet orbit_info "sc_orient" with
      | .error e => .error e
      | .ok scN =>
        match dsOf scN with
        | .error e => .error e
        | .ok scD =>
          match item0 scD with
          | .error e => .error e
          | .ok orientation =>
            let strength := beam_strength orientation beam
            match nodeGet file "ancillary_data" with
            | .error e => .error e
            | .ok ancillary_data =>
              match nodeGet ancillary_data "atlas_sdp_gps_epoch" with
              | .error e => .error e
              | .ok epN =>
                match dsOf epN with
                | .error e => .error e
                | .ok epD =>
                  match item0 epD with
                  | .error e => .error e
                  | .ok atlas_sdp_gps_epoch =>
                    match nodeGet file beam with
                    | .error e => .error e
                    | .ok beam_group =>
                      match nodeGet beam_group "land_segments" with
                      | .error e => .error e
                      | .ok land_segments_group =>
                        match nodeGet land_segments_group "canopy" with
                        | .error e => .error e
                        | .ok canopy_group =>
                          match nodeGet land_segments_group "terrain" with
                          | .error e => .error e
                          | .ok terrain_group =>
                            match nodeGet land_segments_group "latitude" with
                            | .error e => .error e
                            | .ok latN =>
                              match dsOf latN with
                              | .error e => .error e
                              | .ok latD =>
                                match latD.chunks.head? with
                                | none => .error .typeError
                                | some chunk_size =>
                                  if chunk_size = 0 then .error .zeroDivisionError
                                  else
                                    let size := latD.size
                                    match run_chunk_loop land_segments_group beam strength
                                        atlas_sdp_gps_epoch chunk_size
                                        (List.range (number_of_chunks size chunk_size)) with
                                    | .error e => .error e
                                    | .ok (offset, land_segment_chunks) =>
                                      match get_group_chunks canopy_group offset chunk_size with
                                      | .error e => .error e
                                      | .ok canopy_chunks =>
                                        match get_group_chunks terrain_group offset chunk_size with
                                        | .error e => .error e
                                        | .ok terrain_chunks =>
                                          let chunks := land_segment_chunks ++ canopy_chunks
                                            ++ terrain_chunks
                                          match from_arrays chunks group_schema with
                                          | .error e => .error e
                                          | .ok table => .ok [table]

/-! ### Schema metadata patching (`update_schema_geo_metadata`, lines 163-178) -/

/-- Models `d.copy()` on a dict value: allocate a fresh dict holding the same entries;
nested dict references are shared (a shallow copy). -/
def dict_copy (h : Heap) (v : JVal) : Except PyError (Nat × Heap) :=
  match v with
  | .ref a =>
      match h.lookup a with
      | none => .error .keyError
      | some d =>
          let (a2, h2) := h.alloc d
          .ok (a2, h2)
  | _ => .error .typeError

/-- Models `v[k]` on a dict value. -/
def dict_get (h : Heap) (v : JVal) (k : String) : Except PyError JVal :=
  match v with
  | .ref a =>
      match h.lookup a with
      | none => .error .keyError
      | some d =>
          match d.lookup k with
          | some w => .ok w
          | none => .error .keyError
  | _ => .error .typeError

/-- Models `v[k] = w` on a dict value: in-place update of the referenced dict. -/
def dict_set (h : Heap) (v : JVal) (k : String) (w : JVal) : Except PyError Heap :=
  match v with
  | .ref a =>
      match h.lookup a with
      | none => .error .keyError
      | some d => .ok (h.setObj a (assocSet d k w))
  | _ => .error .typeError

/-- Models `ParquetTable.update_schema_geo_metadata` (source lines 163-178): compute
the result set's bounds, shallow-copy the geometadata dict, assign
`updated_geometadata["columns"]["geometry"]["bbox"] = bounds` (which writes
through the shared nested dicts), serialize the updated document into a copy
of the schema metadata under `geo`, and return `self.schema.with_metadata` of
it. `self` is never reassigned; all mutation happens in the dict heap. -/
def update_schema_geo_metadata (pt : ParquetTable) (h : Heap) (results : List Granule) :
    Except PyError (Schema × Heap) :=
  match results_bounds results with
  | .error e => .error e
  | .ok bounds =>
    match dict_copy h pt.geometadata with
    | .error e => .error e
    | .ok (copyAddr, h1) =>
      match dict_get h1 (.ref copyAddr) "columns" with
      | .error e => .error e
      | .ok columnsV =>
        match dict_get h1 columnsV "geometry" with
        | .error e => .error e
        | .ok geometryV =>
          match dict_set h1 geometryV "bbox" (.arr (bounds.map JVal.num)) with
          | .error e => .error e
          | .ok h2 =>
            match jsonDumps h2 (.ref copyAddr) with
            | .error e => .error e
            | .ok geoT =>
              let updated_metadata := assocSet pt.schema.metadata "geo" geoT
              .ok (pt.schema.with_metadata updated_metadata, h2)

/-! ### Partitioned writer (`write_results_by_partition`, lines 180-198)

Concurrency note: per beam, the code submits one `chunks_to_tables` task per
granule to a `ThreadPoolExecutor`, then blocks on `concurrent.futures.wait`
before touching the results; the tasks share no mutable state and the sink is
written only from the main thread after the barrier, so the whole call is
modelled by its post-join sequential semantics. The set of completed futures
iterates in unspecified order; the model keeps submission order, on which no
claim depends. -/

instance exceptDecEq {ε α : Type} [DecidableEq ε] [DecidableEq α] :
    DecidableEq (Except ε α) := fun x y =>
  match x, y with
  | .ok a, .ok b =>
      if h : a = b then isTrue (by rw [h]) else isFalse (fun hh => by cases hh; exact h rfl)
  | .error a, .error b =>
      if h : a = b then isTrue (by rw [h]) else isFalse (fun hh => by cases hh; exact h rfl)
  | .ok _, .error _ => isFalse (fun hh => Except.noConfusion hh)
  | .error _, .ok _ => isFalse (fun hh => Except.noConfusion hh)

/-- One interaction with the output sink. -/
inductive SinkEvent where
  | writeTable (beam : String) (t : PaTable)
  | closeFile
  deriving DecidableEq

/-- The observable outcome of one `write_results_by_partition` call: the sink
event trace, everything printed by the `except` handler, and the call's own
outcome (the Python function returns `None` on success). -/
structure RunOutput where
  events : List SinkEvent
  printed : List PyError
  result : Except PyError Unit
  deriving DecidableEq

/-- Models `pa.concat_tables` on two tables (schemas must agree). -/
def concat2 (t1 t2 : PaTable) : Except PyError PaTable :=
  if t1.map Prod.fst = t2.map Prod.fst then
    .ok (t1.zipWith (fun c1 c2 => (c1.1, c1.2 ++ c2.2)) t2)
  else .error .valueError

def concat_fold (acc : PaTable) : List PaTable → Except PyError PaTable
  | [] => .ok acc
  | t :: ts =>
      match concat2 acc t with
      | .error e => .error e
      | .ok acc2 => concat_fold acc2 ts

/-- Models `pa.concat_tables(results_tables)`; raises on an empty list. -/
def concat_tables : List PaTable → Except PyError PaTable
  | [] => .error .valueError
  | t :: ts => concat_fold t ts

/-- The six fixed beam names, in the order the writer iterates them. -/
def beams : List String := ["gt1l", "gt1r", "gt2l", "gt2r", "gt3l", "gt3r"]

/-- One beam's round (source lines 185-196): submit one `chunks_to_tables`
task per granule, wait for all of them, extend with the successful results,
print the failures, and concatenate. Returns what was printed and the
concatenation outcome. -/
def beam_round (results_schema : Schema) (results_list : List Granule) (beam : String) :
    List PyError × Except PyError PaTable :=
  let rs := results_list.map (fun result => chunks_to_tables result beam results_schema)
  let results_tables := rs.foldl
    (fun acc r => match r with | .ok ts => acc ++ ts | .error _ => acc) []
  let printed := rs.filterMap
    (fun r => match r with | .error e => some e | .ok _ => none)
  (printed, concat_tables results_tables)

/-- The writer's per-beam loop: one `beam_round` and one write per beam name,
in order; a `concat_tables` failure propagates and aborts the remaining beams
(and the close). -/
def process_beams (results_schema : Schema) (results_list : List Granule) :
    List String → List SinkEvent × List PyError × Except PyError Unit
  | [] => ([], [], .ok ())
  | beam :: rest =>
    match beam_round results_schema results_list beam with
    | (printed, .error e) => ([], printed, .error e)
    | (printed, .ok combined_table) =>
        let (evs, prs, res) := process_beams results_schema results_list rest
        (.writeTable beam combined_table :: evs, printed ++ prs, res)

/-- Models `ParquetTable.write_results_by_partition` (source lines 180-198): patch the
schema metadata with the fresh envelope, open the writer, process the six
beams in order, close the sink. -/
def write_results_by_partition (pt : ParquetTable) (h : Heap) (results_list : List Granule) :
    RunOutput × Heap :=
  match update_schema_geo_metadata pt h results_list with
  | .error e => ({ events := [], printed := [], result := .error e }, h)
  | .ok (results_schema, h1) =>
    let (evs, prs, res) := process_beams results_schema results_list beams
    match res with
    | .ok _ => ({ events := evs ++ [.closeFile], printed := prs, result := .ok () }, h1)
    | .error e => ({ events := evs, printed := prs, result := .error e }, h1)

/-! ### Concrete fixtures for witnesses and counterexamples -/

/-- Little-endian float64 numpy dtype. -/
def dtF8 : NpDtype := { byteorder := '<', kind := "f8" }

/-- Signed one-byte integer dtype (`sc_orient`). -/
def dtI1 : NpDtype := { byteorder := '|', kind := "i1" }

/-- A `land_segments` group whose member datasets carry `vals`, chunked by 2;
members listed in h5py's name order. -/
def mkLandGroup (vals : List ℚ) : H5Node :=
  .group [
    ("canopy", .group []),
    ("delta_time", .dataset { dtype := dtF8, dsdata := .d1 vals, chunks := [2] }),
    ("latitude", .dataset { dtype := dtF8, dsdata := .d1 vals, chunks := [2] }),
    ("longitude", .dataset { dtype := dtF8, dsdata := .d1 vals, chunks := [2] }),
    ("terrain", .group [])]

/-- A granule file with orientation 0, epoch offset 0, and all six beams
holding `mkLandGroup vals`. -/
def mkFile (vals : List ℚ) : H5Node :=
  .group [
    ("ancillary_data", .group [
      ("atlas_sdp_gps_epoch",
        .dataset { dtype := dtF8, dsdata := .d1 [0], chunks := [1] })]),
    ("gt1l", .group [("land_segments", mkLandGroup vals)]),
    ("gt1r", .group [("land_segments", mkLandGroup vals)]),
    ("gt2l", .group [("land_segments", mkLandGroup vals)]),
    ("gt2r", .group [("land_segments", mkLandGroup vals)]),
    ("gt3l", .group [("land_segments", mkLandGroup vals)]),
    ("gt3r", .group [("land_segments", mkLandGroup vals)]),
    ("orbit_info", .group [
      ("sc_orient", .dataset { dtype := dtI1, dsdata := .d1 [0], chunks := [1] })])]

/-- The 7-field schema `create_pyarrow_schema` derives from `mkFile`'s layout
(3 land-segment datasets, the 4 synthetic fields, no canopy/terrain
datasets). -/
def cSchema7 : Schema :=
  { fields := [
      { name := "delta_time", type := .float64 },
      { name := "latitude", type := .float64 },
      { name := "longitude", type := .float64 },
      geometry_field, timestamp_field, beam_field, strength_field],
    metadata := [] }

/-- A granule whose box is `[0, 0, 10, 10]` and whose data file opens to
`mkFile vals`. -/
def mkGranule (vals : List ℚ) : Granule :=
  { points := [{ Longitude := 0, Latitude := 0 }, { Longitude := 10, Latitude := 10 }],
    file := .ok (mkFile vals) }

/-- A granule whose remote open fails (`OSError` from `fs.open`). -/
def badGranule : Granule :=
  { points := [{ Longitude := 1, Latitude := 1 }],
    file := .error .osError }

/-- A geometadata heap shaped like the tutorial's document:
`{"columns": {"geometry": {"bbox": old, "encoding": "WKB"}}}` with the three
dicts at addresses 0, 1, 2. -/
def mkGeoHeap (old : JVal) : Heap :=
  { objs := [
      (0, [("columns", .ref 1)]),
      (1, [("geometry", .ref 2)]),
      (2, [("bbox", old), ("encoding", .str "WKB")])],
    next := 3 }

/-- State of `mkGeoHeap` after `update_schema_geo_metadata` computed bounds `bs`: the
shallow copy of dict 0 lives at address 3, and the shared nested dict 2 now
holds the new bbox. -/
def geoHeapAfter (bs : List ℚ) : Heap :=
  { objs := [
      (0, [("columns", .ref 1)]),
      (1, [("geometry", .ref 2)]),
      (2, [("bbox", .arr (bs.map JVal.num)), ("encoding", .str "WKB")]),
      (3, [("columns", .ref 1)])],
    next := 4 }

/-- The serialized geometadata document carrying bounds `bs`. -/
def geoTreeWith (bs : List ℚ) : JTree :=
  .obj [("columns", .obj [("geometry",
    .obj [("bbox", .arr (bs.map JTree.num)), ("encoding", .str "WKB")])])]

/-! ### Spec-side definitions (written from the specification's words, for
comparison with the code-derived definitions above) -/

/-- The specification's beam-strength lookup table over
`(orientation, beam suffix)`: `(0, l) → strong`, `(1, r) → strong`,
`(2, _) → degraded`, everything else `weak`. -/
def strength_lookup (orientation : ℚ) (suffix : Char) : String :=
  if orientation = 0 ∧ suffix = 'l' then "strong"
  else if orientation = 1 ∧ suffix = 'r' then "strong"
  else if orientation = 2 then "degraded"
  else "weak"

/-- The specification's spatial envelope: each bound is the min/max of the
corresponding coordinate over all vertices, `none` when there are no
vertices. -/
def envelope_of_vertices : List GPoint → Option (List ℚ)
  | [] => none
  | v :: vs =>
      some [(vs.map GPoint.Longitude).foldl min v.Longitude,
            (vs.map GPoint.Latitude).foldl min v.Latitude,
            (vs.map GPoint.Longitude).foldl max v.Longitude,
            (vs.map GPoint.Latitude).foldl max v.Latitude]

/-- Navigate `root["columns"]["geometry"]["bbox"]` in a heap: the nested bbox
entry of a geometadata document. -/
def read_bbox (h : Heap) (root : JVal) : Except PyError JVal :=
  match dict_get h root "columns" with
  | .error e => .error e
  | .ok c =>
      match dict_get h c "geometry" with
      | .error e => .error e
      | .ok g => dict_get h g "bbox"

/-! ### Claim theorems -/

/-- C4: for every orientation value and each of the six fixed beam names, the
strength computed by the converter's `if`/`elif` chain equals the
specification's pure lookup of `(orientation, beam suffix)`. -/
theorem C4_beam_strength_is_lookup (orientation : ℚ) (beam : String)
    (_hb : beam ∈ beams) :
    beam_strength orientation beam = strength_lookup orientation beam.back := rfl

/-- C4 witness: concrete instance at orientation 1, beam `gt2r` (a strong
combination). -/
theorem C4_beam_strength_is_lookup_witness :
    ("gt2r" ∈ beams) ∧
      (beam_strength 1 "gt2r" = strength_lookup 1 (String.back "gt2r")) ∧
      beam_strength 1 "gt2r" = "strong" :=
  ⟨by decide, C4_beam_strength_is_lookup 1 "gt2r" (by decide), by decide⟩

/-- A `land_segments` group whose member datasets carry `vals` (chunked by 2)
and whose canopy and terrain subgroups each hold one dataset over `vals`;
members listed in h5py's name order. -/
def mkLandGroupCT (vals : List ℚ) : H5Node :=
  .group [
    ("canopy", .group [
      ("h_canopy", .dataset { dtype := dtF8, dsdata := .d1 vals, chunks := [2] })]),
    ("delta_time", .dataset { dtype := dtF8, dsdata := .d1 vals, chunks := [2] }),
    ("latitude", .dataset { dtype := dtF8, dsdata := .d1 vals, chunks := [2] }),
    ("longitude", .dataset { dtype := dtF8, dsdata := .d1 vals, chunks := [2] }),
    ("terrain", .group [
      ("h_te_mean", .dataset { dtype := dtF8, dsdata := .d1 vals, chunks := [2] })])]

/-- A granule file whose `gt1l` beam has populated canopy and terrain
groups. -/
def mkFileCT (vals : List ℚ) : H5Node :=
  .group [
    ("ancillary_data", .group [
      ("atlas_sdp_gps_epoch",
        .dataset { dtype := dtF8, dsdata := .d1 [0], chunks := [1] })]),
    ("gt1l", .group [("land_segments", mkLandGroupCT vals)]),
    ("orbit_info", .group [
      ("sc_orient", .dataset { dtype := dtI1, dsdata := .d1 [0], chunks := [1] })])]

/-- A granule over `mkFileCT`. -/
def mkGranuleCT (vals : List ℚ) : Granule :=
  { points := [{ Longitude := 0, Latitude := 0 }, { Longitude := 10, Latitude := 10 }],
    file := .ok (mkFileCT vals) }

/-- The 9-field schema matching `mkFileCT`'s layout: 3 land-segment datasets,
the 4 synthetic fields, one canopy field, one terrain field. -/
def cSchema9 : Schema :=
  { fields := [
      { name := "delta_time", type := .float64 },
      { name := "latitude", type := .float64 },
      { name := "longitude", type := .float64 },
      geometry_field, timestamp_field, beam_field, strength_field,
      { name := "h_canopy", type := .float64 },
      { name := "h_te_mean", type := .float64 }],
    metadata := [] }

/-- The single table the converter actually builds from
`mkGranuleCT [10, 20, 30]`: every column — segment, synthetic, canopy and
terrain alike — holds only the final chunk's one row (value 30). -/
def cTblC2 : PaTable :=
  [("delta_time", [.num 30]), ("latitude", [.num 30]), ("longitude", [.num 30]),
   ("geometry", [.wkbPoint 30 30]), ("timestamp", [.timestamp (GPS_EPOCH + 30 + 0)]),
   ("beam", [.str "gt1l"]), ("strength", [.str "strong"]),
   ("h_canopy", [.num 30]), ("h_te_mean", [.num 30])]

/-- C2 (code bug evaluation): for a beam whose datasets have 3 rows and chunk
size 2 — the code's own chunk count is 2, and the claim demands one table per
chunk, holding that chunk's rows for every column — `chunks_to_tables`
returns exactly ONE table, and that table holds only the final chunk's single
row (value 30) in every column, segment, synthetic, canopy and terrain alike:
the canopy/terrain slicing and table construction (source lines 156-160) sit
outside the `for` loop, so only the last iteration's offset survives. -/
theorem C2_one_table_not_per_chunk :
    number_of_chunks 3 2 = 2
    ∧ chunks_to_tables (mkGranuleCT [10, 20, 30]) "gt1l" cSchema9 = .ok [cTblC2]
    ∧ [cTblC2].length ≠ number_of_chunks 3 2 :=
  ⟨rfl, rfl, by decide⟩

/-- C3 (code bug evaluation): `number_of_chunks` is `size // chunk_size + 1`,
so a length exactly divisible by the chunk size processes one chunk more than
`length / chunk_size` — and since the table is built from the final (empty
overhang) chunk, the single returned table is empty. A length one above an
exact multiple does land on the claimed rounded-up count. -/
theorem C3_chunk_count_off_by_one :
    number_of_chunks 4 2 = 3
    ∧ 4 / 2 = 2
    ∧ number_of_chunks 5 2 = 3
    ∧ ((chunks_to_tables (mkGranule [1, 2, 3, 4]) "gt1l" cSchema7).map
        (fun ts => ts.map (fun t => t.map (fun c => c.2.length)))
        = .ok [[0, 0, 0, 0, 0, 0, 0]]) :=
  ⟨rfl, rfl, rfl, rfl⟩

/-- C6 counterexample: on an empty granule collection, `results_bounds` does
not fail with the spec's `EmptyInputError`. -/
theorem C6_not_empty_input_error :
    results_bounds [] ≠ Except.error PyError.emptyInputError := by decide

/-- C6 (amended): on an empty granule collection, `results_bounds` fails with
`IndexError` (from `results[0]`); it returns no default or degenerate box. -/
theorem C6_empty_raises_index_error :
    results_bounds [] = Except.error PyError.indexError := rfl

/-- The writer object and heap used by the concrete runs below. -/
def cPT : ParquetTable := { schema := cSchema7, geometadata := .ref 0 }

def cHeap : Heap := mkGeoHeap (.arr [])

/-- C10 counterexample: after `update_schema_geo_metadata`, the nested
`columns.geometry.bbox` entry reachable from `self.geometadata` (address 0)
holds the freshly computed bounds `[0, 0, 10, 10]`, whereas before the call it
held the old value `[]`: the shallow `dict.copy()` shares the nested dicts, so
the writer's stored geometadata IS mutated, contradicting the claim. -/
theorem C10_nested_bbox_mutated :
    ((match update_schema_geo_metadata cPT cHeap [mkGranule [5]] with
      | .ok (_, h2) => read_bbox h2 (.ref 0)
      | .error e => .error e)
        = .ok (.arr [.num 0, .num 0, .num 10, .num 10]))
    ∧ read_bbox cHeap (.ref 0) = .ok (.arr []) :=
  ⟨rfl, rfl⟩

/-- Resolving a list of plain numbers succeeds at any positive fuel. -/
theorem mapM_resolveV_num (h : Heap) (fuel : Nat) (qs : List ℚ) :
    (qs.map JVal.num).mapM (resolveV h (fuel + 1)) = some (qs.map JTree.num) := by
  induction qs with
  | nil => rfl
  | cons q qs ih => simp only [List.map_cons, List.mapM_cons, resolveV, ih]; rfl

/-- Resolving the whole updated geometadata document from its shallow copy at
address 3. -/
theorem resolveV_geoHeapAfter (fuel : Nat) (bs : List ℚ) :
    resolveV (geoHeapAfter bs) (fuel + 1 + 1 + 1 + 1 + 1) (.ref 3)
      = some (geoTreeWith bs) := by
  simp only [resolveV,
    show (geoHeapAfter bs).lookup 3 = some [("columns", .ref 1)] from rfl,
    show (geoHeapAfter bs).lookup 1 = some [("geometry", .ref 2)] from rfl,
    show (geoHeapAfter bs).lookup 2
      = some [("bbox", .arr (bs.map JVal.num)), ("encoding", .str "WKB")] from rfl,
    List.mapM_cons, List.mapM_nil, mapM_resolveV_num, geoTreeWith]
  rfl

/-- Serializing the post-update geometadata document from its shallow copy at
address 3 yields the document carrying the fresh bounds. -/
theorem jsonDumps_geoHeapAfter (bs : List ℚ) :
    jsonDumps (geoHeapAfter bs) (.ref 3) = .ok (geoTreeWith bs) := by
  show (match resolveV (geoHeapAfter bs) (19 + 1 + 1 + 1 + 1 + 1) (.ref 3) with
    | some t => Except.ok t
    | none => Except.error PyError.valueError) = .ok (geoTreeWith bs)
  rw [resolveV_geoHeapAfter 19 bs]

/-- C10 (amended): for any stored bbox value, any schema and any granule list
with computable bounds `bs`, `update_schema_geo_metadata` returns a NEW schema
value — same fields, metadata whose `geo` entry is the serialized document
carrying the fresh bounds — and `self.schema` is never reassigned (the call
builds its result with `with_metadata`); BUT, because `geometadata.copy()` is
shallow, the nested `columns.geometry.bbox` entry of the stored geometadata
document is updated in place to the new bounds. -/
theorem C10_fresh_schema_but_shallow_copy (old : JVal) (s : Schema)
    (results : List Granule) (bs : List ℚ)
    (hb : results_bounds results = .ok bs) :
    update_schema_geo_metadata { schema := s, geometadata := .ref 0 }
        (mkGeoHeap old) results
      = .ok (s.with_metadata (assocSet s.metadata "geo" (geoTreeWith bs)),
             geoHeapAfter bs)
    ∧ read_bbox (geoHeapAfter bs) (.ref 0) = .ok (.arr (bs.map JVal.num)) := by
  constructor
  · simp only [update_schema_geo_metadata]
    rw [hb]
    show (match jsonDumps (geoHeapAfter bs) (JVal.ref 3) with
      | Except.error e => Except.error e
      | Except.ok geoT =>
          Except.ok (Schema.with_metadata s (assocSet s.metadata "geo" geoT),
            geoHeapAfter bs))
      = Except.ok (s.with_metadata (assocSet s.metadata "geo" (geoTreeWith bs)),
          geoHeapAfter bs)
    rw [jsonDumps_geoHeapAfter bs]
  · rfl

/-- C10 witness: the amended statement at the concrete writer, heap and
granule used throughout. -/
theorem C10_fresh_schema_but_shallow_copy_witness :
    (update_schema_geo_metadata { schema := cSchema7, geometadata := .ref 0 }
        (mkGeoHeap (.arr [])) [mkGranule [5]]
      = .ok (cSchema7.with_metadata
              (assocSet cSchema7.metadata "geo" (geoTreeWith [0, 0, 10, 10])),
             geoHeapAfter [0, 0, 10, 10]))
    ∧ read_bbox (geoHeapAfter [0, 0, 10, 10]) (.ref 0)
      = .ok (.arr [.num 0, .num 0, .num 10, .num 10]) :=
  C10_fresh_schema_but_shallow_copy (.arr []) cSchema7 [mkGranule [5]]
    [0, 0, 10, 10] rfl

/-! ### C5: the spatial envelope equals the componentwise min/max over all
vertices -/

theorem foldl_min_pull (xs : List ℚ) (a c : ℚ) :
    xs.foldl min (min a c) = min a (xs.foldl min c) := by
  induction xs generalizing c with
  | nil => rfl
  | cons x xs ih =>
      simp only [List.foldl_cons]
      rw [min_assoc, ih]

theorem foldl_max_pull (xs : List ℚ) (a c : ℚ) :
    xs.foldl max (max a c) = max a (xs.foldl max c) := by
  induction xs generalizing c with
  | nil => rfl
  | cons x xs ih =>
      simp only [List.foldl_cons]
      rw [max_assoc, ih]

/-- Evaluating `result_bbox` on a granule with at least one vertex gives the
componentwise min/max folds. -/
theorem result_bbox_eq (g : Granule) (p : GPoint) (ps : List GPoint)
    (hp : g.points = p :: ps) :
    result_bbox g = .ok
      { minx := (ps.map GPoint.Longitude).foldl min p.Longitude,
        miny := (ps.map GPoint.Latitude).foldl min p.Latitude,
        maxx := (ps.map GPoint.Longitude).foldl max p.Longitude,
        maxy := (ps.map GPoint.Latitude).foldl max p.Latitude } := by
  simp only [result_bbox, hp, List.map_cons, pymin, pymax]

/-- The union fold accumulates the componentwise join over every vertex of
every granule. -/
theorem bbox_union_fold (gs : List Granule) (b : Box)
    (hp : ∀ g ∈ gs, g.points ≠ []) :
    gs.foldl bbox_union_step (.ok b)
      = .ok { minx := ((gs.map Granule.points).flatten.map GPoint.Longitude).foldl min b.minx,
              miny := ((gs.map Granule.points).flatten.map GPoint.Latitude).foldl min b.miny,
              maxx := ((gs.map Granule.points).flatten.map GPoint.Longitude).foldl max b.maxx,
              maxy := ((gs.map Granule.points).flatten.map GPoint.Latitude).foldl max b.maxy } := by
  induction gs generalizing b with
  | nil => rfl
  | cons g gs ih =>
      obtain ⟨p, ps, hgp⟩ : ∃ p ps, g.points = p :: ps := by
        cases hgps : g.points with
        | nil => exact absurd hgps (hp g (by simp))
        | cons p ps => exact ⟨p, ps, rfl⟩
      have hb := result_bbox_eq g p ps hgp
      simp only [List.foldl_cons, bbox_union_step, hb]
      rw [ih (boxJoin b _) (fun g2 hg2 => hp g2 (List.mem_cons_of_mem _ hg2))]
      simp only [List.map_cons, List.flatten_cons, hgp, List.cons_append,
        List.map_append, List.foldl_cons, List.foldl_append, boxJoin]
      simp only [foldl_min_pull, foldl_max_pull]

/-- The componentwise envelope of a nonempty vertex list, as a box. -/
theorem envelope_of_vertices_cons (v : GPoint) (vs : List GPoint) :
    envelope_of_vertices (v :: vs)
      = some [(vs.map GPoint.Longitude).foldl min v.Longitude,
              (vs.map GPoint.Latitude).foldl min v.Latitude,
              (vs.map GPoint.Longitude).foldl max v.Longitude,
              (vs.map GPoint.Latitude).foldl max v.Latitude] := rfl

/-- C5: for a nonempty granule list whose granules each advertise at least one
polygon vertex, `results_bounds` returns
`[min_lon, min_lat, max_lon, max_lat]`, each bound the min/max over all
polygon vertices of all granules, as computed by the spec-side
`envelope_of_vertices`. -/
theorem C5_results_bounds_envelope (results : List Granule) (bs : List ℚ)
    (hne : results ≠ [])
    (hp : ∀ g ∈ results, g.points ≠ [])
    (henv : envelope_of_vertices (results.map Granule.points).flatten = some bs) :
    results_bounds results = .ok bs := by
  cases results with
  | nil => exact absurd rfl hne
  | cons r0 rs =>
      obtain ⟨p, ps, hgp⟩ : ∃ p ps, r0.points = p :: ps := by
        cases hgps : r0.points with
        | nil => exact absurd hgps (hp r0 (by simp))
        | cons p ps => exact ⟨p, ps, rfl⟩
      have hb0 := result_bbox_eq r0 p ps hgp
      have hjoin : ((r0 :: rs).map Granule.points).flatten
          = p :: (ps ++ (rs.map Granule.points).flatten) := by
        simp [hgp]
      rw [hjoin, envelope_of_vertices_cons] at henv
      injection henv with henv
      subst henv
      simp only [results_bounds, hb0, List.foldl_cons, bbox_union_step]
      rw [show boxJoin
          { minx := (ps.map GPoint.Longitude).foldl min p.Longitude,
            miny := (ps.map GPoint.Latitude).foldl min p.Latitude,
            maxx := (ps.map GPoint.Longitude).foldl max p.Longitude,
            maxy := (ps.map GPoint.Latitude).foldl max p.Latitude }
          { minx := (ps.map GPoint.Longitude).foldl min p.Longitude,
            miny := (ps.map GPoint.Latitude).foldl min p.Latitude,
            maxx := (ps.map GPoint.Longitude).foldl max p.Longitude,
            maxy := (ps.map GPoint.Latitude).foldl max p.Latitude }
          = { minx := (ps.map GPoint.Longitude).foldl min p.Longitude,
              miny := (ps.map GPoint.Latitude).foldl min p.Latitude,
              maxx := (ps.map GPoint.Longitude).foldl max p.Longitude,
              maxy := (ps.map GPoint.Latitude).foldl max p.Latitude }
        from by simp [boxJoin]]
      rw [bbox_union_fold rs _ (fun g2 hg2 => hp g2 (List.mem_cons_of_mem _ hg2))]
      simp only [List.map_append, List.foldl_append, foldl_min_pull, foldl_max_pull]
/-- A granule whose box is `[5, 5, 20, 20]`. -/
def cG5b : Granule :=
  { points := [{ Longitude := 5, Latitude := 5 }, { Longitude := 20, Latitude := 20 }],
    file := .error .osError }

/-- C5 witness: the claim's own example — two granules with boxes
`[0, 0, 10, 10]` and `[5, 5, 20, 20]` yield the union envelope
`[0, 0, 20, 20]`. -/
theorem C5_results_bounds_envelope_witness :
    results_bounds [mkGranule [5], cG5b] = .ok [0, 0, 20, 20] :=
  C5_results_bounds_envelope [mkGranule [5], cG5b] [0, 0, 20, 20]
    (by simp)
    (by
      intro g hg
      rcases List.mem_cons.mp hg with h | hg2
      · subst h; simp [mkGranule]
      · rcases List.mem_cons.mp hg2 with h | h3
        · subst h; simp [cG5b]
        · cases h3)
    (by decide)

/-! ### C1: column order of every produced table -/

/-- Decomposing a successfully created schema: land-segment fields, synthetic
fields, canopy fields, terrain fields, in this order. -/
theorem create_schema_fields (template : H5Node) (h : Heap) (geoV : JVal)
    (s0 : Schema) (gt1l land canopy terrain : H5Node)
    (hgt : nodeGet template "gt1l" = .ok gt1l)
    (hland : nodeGet gt1l "land_segments" = .ok land)
    (hcan : nodeGet land "canopy" = .ok canopy)
    (hterr : nodeGet land "terrain" = .ok terrain)
    (hcreate : create_pyarrow_schema template h geoV = .ok s0) :
    s0.fields = datasets_to_fields land
      ++ [geometry_field, timestamp_field, beam_field, strength_field]
      ++ datasets_to_fields canopy ++ datasets_to_fields terrain := by
  simp only [create_pyarrow_schema, hgt, hland, hcan, hterr] at hcreate
  cases hj : jsonDumps h geoV with
  | error e => rw [hj] at hcreate; cases hcreate
  | ok t =>
      rw [hj] at hcreate
      cases hcreate
      simp [List.append_assoc]

/-- A table `pa.Table.from_arrays` accepts is the schema names zipped with an
equally long column list. -/
theorem from_arrays_ok (chunks : List Column) (s : Schema) (t : PaTable)
    (h : from_arrays chunks s = .ok t) :
    t = (s.fields.map PaField.name).zip chunks
      ∧ chunks.length = s.fields.length := by
  unfold from_arrays at h
  split at h
  · rename_i hc
    cases h
    exact ⟨rfl, hc.1⟩
  · cases h

/-- Any successful `chunks_to_tables` run returns exactly one table, obtained
by zipping the schema's field names with an equally long list of columns. -/
theorem chunks_to_tables_ok (g : Granule) (beam : String) (s : Schema)
    (ts : List PaTable)
    (hrun : chunks_to_tables g beam s = .ok ts) :
    ∃ chunks, ts = [(s.fields.map PaField.name).zip chunks]
      ∧ chunks.length = s.fields.length := by
  unfold chunks_to_tables at hrun
  repeat' first
    | split at hrun
    | dsimp only at hrun
  all_goals try (cases hrun)
  all_goals refine ⟨_, ?_, (from_arrays_ok _ _ _ (by assumption)).2⟩
  all_goals
    (have hfa := from_arrays_ok _ _ _ (by assumption)
     rw [hfa.1])

/-- C1: every table produced by `chunks_to_tables` under a schema whose field
names agree with a successfully derived `create_pyarrow_schema` (the metadata-
patched production schema included) has column names exactly equal to the
schema's declared field name sequence: the land-segment dataset fields in
enumeration order, then the synthetic geometry / timestamp / beam / strength
columns, then the canopy fields, then the terrain fields. -/
theorem C1_column_order (template : H5Node) (h : Heap) (geoV : JVal)
    (s0 s : Schema) (gt1l land canopy terrain : H5Node)
    (g : Granule) (beam : String) (ts : List PaTable) (t : PaTable)
    (hgt : nodeGet template "gt1l" = .ok gt1l)
    (hland : nodeGet gt1l "land_segments" = .ok land)
    (hcan : nodeGet land "canopy" = .ok canopy)
    (hterr : nodeGet land "terrain" = .ok terrain)
    (hcreate : create_pyarrow_schema template h geoV = .ok s0)
    (hs : s.fields.map PaField.name = s0.fields.map PaField.name)
    (hrun : chunks_to_tables g beam s = .ok ts)
    (ht : t ∈ ts) :
    t.map Prod.fst
      = (datasets_to_fields land).map PaField.name
        ++ ["geometry", "timestamp", "beam", "strength"]
        ++ (datasets_to_fields canopy).map PaField.name
        ++ (datasets_to_fields terrain).map PaField.name := by
  obtain ⟨chunks, hts, hlen⟩ := chunks_to_tables_ok g beam s ts hrun
  subst hts
  have hteq : t = (s.fields.map PaField.name).zip chunks := List.mem_singleton.mp ht
  subst hteq
  have hfst : ((s.fields.map PaField.name).zip chunks).map Prod.fst
      = s.fields.map PaField.name :=
    List.map_fst_zip _ _ (by simp [hlen])
  rw [hfst, hs,
    create_schema_fields template h geoV s0 gt1l land canopy terrain
      hgt hland hcan hterr hcreate]
  simp [geometry_field, timestamp_field, beam_field, strength_field]

/-- The schema `ParquetTable.init` derives from template `mkFile [5]` with the
trivial geometadata document `0`. -/
def cSchema0 : Schema :=
  { fields := cSchema7.fields, metadata := [("geo", .num 0)] }

/-- The single table `chunks_to_tables` builds from `mkGranule [5]`, beam
`gt1l`, under `cSchema0`. -/
def cTbl : PaTable :=
  [("delta_time", [.num 5]), ("latitude", [.num 5]), ("longitude", [.num 5]),
   ("geometry", [.wkbPoint 5 5]), ("timestamp", [.timestamp (GPS_EPOCH + 5 + 0)]),
   ("beam", [.str "gt1l"]), ("strength", [.str "strong"])]

/-- C1 witness: a concrete conversion whose produced table's column names are
exactly the schema's declared field name sequence. -/
theorem C1_column_order_witness :
    (create_pyarrow_schema (mkFile [5]) emptyHeap (.num 0) = .ok cSchema0)
    ∧ (chunks_to_tables (mkGranule [5]) "gt1l" cSchema0 = .ok [cTbl])
    ∧ cTbl.map Prod.fst
      = ["delta_time", "latitude", "longitude",
         "geometry", "timestamp", "beam", "strength"] :=
  ⟨rfl, rfl, by
    have h := C1_column_order (mkFile [5]) emptyHeap (.num 0) cSchema0 cSchema0
      (.group [("land_segments", mkLandGroup [5])]) (mkLandGroup [5])
      (.group []) (.group []) (mkGranule [5]) "gt1l" [cTbl] cTbl
      rfl rfl rfl rfl rfl rfl rfl (List.mem_singleton.mpr rfl)
    exact h⟩

/-! ### C8: constructor failure on missing groups / malformed geometadata -/

/-- Whether the template file resolves the three expected groups
(`gt1l/land_segments`, its `canopy`, its `terrain`). -/
def has_three_groups (template : H5Node) : Bool :=
  match nodeGet template "gt1l" with
  | .error _ => false
  | .ok gt1l =>
    match nodeGet gt1l "land_segments" with
    | .error _ => false
    | .ok land_segments_group =>
      match nodeGet land_segments_group "canopy" with
      | .error _ => false
      | .ok _ =>
        match nodeGet land_segments_group "terrain" with
        | .error _ => false
        | .ok _ => true

/-- A failed h5py member lookup raises `KeyError` (missing member) or
`TypeError` (subscripting a dataset). -/
theorem nodeGet_error (n : H5Node) (k : String) (e : PyError)
    (h : nodeGet n k = .error e) : e = .keyError ∨ e = .typeError := by
  unfold nodeGet at h
  split at h
  · split at h
    · cases h
    · cases h
      exact .inl rfl
  · cases h
    exact .inr rfl

/-- A geometadata document shaped like the tutorial's, as a parse tree. -/
def cGeoTree : JTree :=
  .obj [("columns", .obj [("geometry",
    .obj [("bbox", .arr []), ("encoding", .str "WKB")])])]

/-- A template file whose `gt1l/land_segments` group lacks the `canopy`
group. -/
def cTemplateNoCanopy : H5Node :=
  .group [("gt1l", .group [("land_segments", .group [
    ("latitude", .dataset { dtype := dtF8, dsdata := .d1 [0], chunks := [2] }),
    ("terrain", .group [])])])]

/-- C8 counterexample: on a template lacking the canopy group, the constructor
fails with `KeyError`, not with the spec's `SchemaError` (no such error exists
anywhere in the code). -/
theorem C8_init_keyerror_not_schemaerror :
    (ParquetTable.init (some cGeoTree) cTemplateNoCanopy emptyHeap
      = .error .keyError)
    ∧ (ParquetTable.init (some cGeoTree) cTemplateNoCanopy emptyHeap
      ≠ .error .schemaError) := by
  refine ⟨rfl, ?_⟩
  intro hcon
  rw [show ParquetTable.init (some cGeoTree) cTemplateNoCanopy emptyHeap
      = Except.error PyError.keyError from rfl] at hcon
  injection hcon with h
  cases h

/-- C8 (amended): the constructor fails before any conversion work — with
`JSONDecodeError` when the geometadata document is malformed, and with the
`KeyError`/`TypeError` of the failed group lookup when the template lacks any
of the three expected groups. -/
theorem C8_init_fails_fast (geoParsed : Option JTree) (template : H5Node) (h : Heap) :
    (geoParsed = none →
      ParquetTable.init geoParsed template h = .error .jsonDecodeError)
    ∧ (∀ t, geoParsed = some t → has_three_groups template = false →
        ParquetTable.init geoParsed template h = .error .keyError
        ∨ ParquetTable.init geoParsed template h = .error .typeError) := by
  constructor
  · intro hg
    subst hg
    rfl
  · intro t hg hmiss
    subst hg
    unfold ParquetTable.init
    dsimp only
    rcases hat : allocTree h t with ⟨h1x, gv⟩
    cases h1 : nodeGet template "gt1l" with
    | error e =>
        simp only [create_pyarrow_schema, h1]
        rcases nodeGet_error _ _ _ h1 with rfl | rfl
        · exact .inl rfl
        · exact .inr rfl
    | ok gt1l =>
      cases h2 : nodeGet gt1l "land_segments" with
      | error e =>
          simp only [create_pyarrow_schema, h1, h2]
          rcases nodeGet_error _ _ _ h2 with rfl | rfl
          · exact .inl rfl
          · exact .inr rfl
      | ok land =>
        cases h3 : nodeGet land "canopy" with
        | error e =>
            simp only [create_pyarrow_schema, h1, h2, h3]
            rcases nodeGet_error _ _ _ h3 with rfl | rfl
            · exact .inl rfl
            · exact .inr rfl
        | ok canopy =>
          cases h4 : nodeGet land "terrain" with
          | error e =>
              simp only [create_pyarrow_schema, h1, h2, h3, h4]
              rcases nodeGet_error _ _ _ h4 with rfl | rfl
              · exact .inl rfl
              · exact .inr rfl
          | ok terrain =>
              exfalso
              simp only [has_three_groups, h1, h2, h3, h4] at hmiss
              cases hmiss

/-- C8 witness: the amended statement applied at the canopy-less template. -/
theorem C8_init_fails_fast_witness :
    ParquetTable.init (some cGeoTree) cTemplateNoCanopy emptyHeap
      = .error .keyError
    ∨ ParquetTable.init (some cGeoTree) cTemplateNoCanopy emptyHeap
      = .error .typeError :=
  (C8_init_fails_fast (some cGeoTree) cTemplateNoCanopy emptyHeap).2
    cGeoTree rfl rfl

/-! ### C9: six beams processed in order, one write each, close last -/

/-- The beam a sink event was issued for (`none` for the close). -/
def event_beam : SinkEvent → Option String
  | .writeTable beam _ => some beam
  | .closeFile => none

/-- When the per-beam loop completes without error it issues exactly one write
per beam name, in the order of the beam list. -/
theorem process_beams_events (s : Schema) (rl : List Granule) :
    ∀ bs : List String, (process_beams s rl bs).2.2 = .ok () →
      (process_beams s rl bs).1.map event_beam = bs.map some := by
  intro bs
  induction bs with
  | nil => intro _; rfl
  | cons beam rest ih =>
      intro hok
      simp only [process_beams] at hok ⊢
      rcases hbr : beam_round s rl beam with ⟨printed, combined⟩
      cases combined with
      | error e =>
          rw [hbr] at hok
          dsimp only at hok
          cases hok
      | ok c =>
          rcases hpb : process_beams s rl rest with ⟨evs, prs, res⟩
          rw [hbr] at hok
          rw [hpb] at ih
          dsimp only at hok ⊢
          rw [hpb] at hok
          exact congrArg (some beam :: ·) (ih hok)

/-- C9: whenever `write_results_by_partition` completes, its sink trace is
exactly one write per beam, for the six fixed beam names in the order
`gt1l, gt1r, gt2l, gt2r, gt3l, gt3r`, followed by the close — so no write for
a later beam precedes one for an earlier beam, and the sink is closed only
after all six beams are processed. (Each write happens after the barrier on
that beam's task pool; the within-beam tasks never touch the sink.) -/
theorem C9_write_order (pt : ParquetTable) (h : Heap) (results_list : List Granule)
    (hok : (write_results_by_partition pt h results_list).1.result = .ok ()) :
    (write_results_by_partition pt h results_list).1.events.map event_beam
      = [some "gt1l", some "gt1r", some "gt2l", some "gt2r",
         some "gt3l", some "gt3r", none] := by
  unfold write_results_by_partition at hok ⊢
  cases hu : update_schema_geo_metadata pt h results_list with
  | error e =>
      rw [hu] at hok
      dsimp only at hok
      cases hok
  | ok p =>
      rcases p with ⟨results_schema, h1⟩
      rw [hu] at hok
      dsimp only at hok ⊢
      cases hres : (process_beams results_schema results_list beams).2.2 with
      | error e =>
          rw [hres] at hok
          dsimp only at hok
          cases hok
      | ok u =>
          dsimp only
          have he := process_beams_events results_schema results_list beams
            (by rw [hres])
          rw [List.map_append, he]
          rfl

/-- C9 witness: a concrete single-granule run writing all six beams in order
and closing last. -/
theorem C9_write_order_witness :
    (write_results_by_partition cPT cHeap [mkGranule [5]]).1.events.map event_beam
      = [some "gt1l", some "gt1r", some "gt2l", some "gt2r",
         some "gt3l", some "gt3r", none] :=
  C9_write_order cPT cHeap [mkGranule [5]] rfl

/-! ### C7: one failing task out of N -/

/-- Congruence: `chunks_to_tables` reads its schema argument only through its fields (the
names and count passed to `pa.Table.from_arrays`), so two schemas with equal
fields — e.g. the metadata-patched schema and the original — convert
identically. -/
theorem chunks_to_tables_fields_congr (g : Granule) (beam : String)
    (s1 s2 : Schema) (hf : s1.fields = s2.fields) :
    chunks_to_tables g beam s1 = chunks_to_tables g beam s2 := by
  unfold chunks_to_tables from_arrays
  rw [hf]

/-- Granules whose conversion succeeds contribute nothing to the printed
exceptions of a beam round. -/
theorem no_errors_printed (s : Schema) (beam : String) (l : List Granule)
    (h : ∀ gr ∈ l, ∃ ts, chunks_to_tables gr beam s = .ok ts) :
    (l.map (fun result => chunks_to_tables result beam s)).filterMap
      (fun r => match r with | .error e => some e | .ok _ => none) = [] := by
  induction l with
  | nil => rfl
  | cons gr l ih =>
      obtain ⟨ts, hts⟩ := h gr (List.mem_cons_self gr l)
      simp only [List.map_cons, List.filterMap_cons, hts]
      exact ih (fun gr2 hgr2 => h gr2 (List.mem_cons_of_mem gr hgr2))

/-- A beam round depends on its schema argument only through the fields. -/
theorem beam_round_fields_congr (s1 s2 : Schema) (l : List Granule) (beam : String)
    (hf : s1.fields = s2.fields) :
    beam_round s1 l beam = beam_round s2 l beam := by
  unfold beam_round
  rw [show (fun result => chunks_to_tables result beam s1)
        = (fun result => chunks_to_tables result beam s2)
      from funext fun gr => chunks_to_tables_fields_congr gr beam s1 s2 hf]

/-- One beam round over a granule list holding a single failing granule at an
arbitrary position, the rest succeeding: the failing task's tables are simply
skipped — the same tables are concatenated as without it — and exactly its
exception is printed. -/
theorem beam_round_insert (s : Schema) (pre post : List Granule) (g : Granule)
    (beam : String) (e : PyError)
    (hbad : chunks_to_tables g beam s = .error e)
    (hgood : ∀ gr ∈ pre ++ post, ∃ ts, chunks_to_tables gr beam s = .ok ts) :
    beam_round s (pre ++ g :: post) beam
      = ([e], (beam_round s (pre ++ post) beam).2) := by
  have hpre := no_errors_printed s beam pre
    (fun gr hgr => hgood gr (List.mem_append_left _ hgr))
  have hpost := no_errors_printed s beam post
    (fun gr hgr => hgood gr (List.mem_append_right _ hgr))
  unfold beam_round
  simp only [List.map_append, List.map_cons, List.filterMap_append,
    List.filterMap_cons, List.foldl_append, List.foldl_cons, hbad, hpre, hpost,
    List.nil_append, List.append_nil, Prod.mk.injEq]

/-- The per-beam loop over a granule list holding a single failing granule at
an arbitrary position, given the loop without it succeeds: identical sink
writes, exactly one printed exception per beam, and the same successful
outcome. -/
theorem process_beams_insert (s1 s2 : Schema) (pre post : List Granule)
    (g : Granule) (ebeam : String → PyError)
    (hf : s1.fields = s2.fields) :
    ∀ bs : List String,
      (∀ beam ∈ bs, chunks_to_tables g beam s2 = .error (ebeam beam)) →
      (∀ beam ∈ bs, ∀ gr ∈ pre ++ post, ∃ ts, chunks_to_tables gr beam s2 = .ok ts) →
      (process_beams s1 (pre ++ post) bs).2.2 = .ok () →
      process_beams s2 (pre ++ g :: post) bs
        = ((process_beams s1 (pre ++ post) bs).1, bs.map ebeam, .ok ()) := by
  intro bs
  induction bs with
  | nil => intro _ _ _; rfl
  | cons beam rest ih =>
      intro hbad hgood hok
      simp only [process_beams] at hok ⊢
      have hcg : beam_round s1 (pre ++ post) beam = beam_round s2 (pre ++ post) beam :=
        beam_round_fields_congr s1 s2 (pre ++ post) beam hf
      have hins := beam_round_insert s2 pre post g beam (ebeam beam)
        (hbad beam (List.mem_cons_self beam rest))
        (hgood beam (List.mem_cons_self beam rest))
      cases hbr : beam_round s1 (pre ++ post) beam with
      | mk pr comb =>
          cases comb with
          | error e2 =>
              exfalso
              rw [hbr] at hok
              dsimp only at hok
              cases hok
          | ok c =>
              rw [hins, ← hcg, hbr]
              rw [hbr] at hok
              dsimp only at hok ⊢
              rw [ih (fun b hb => hbad b (List.mem_cons_of_mem beam hb))
                  (fun b hb => hgood b (List.mem_cons_of_mem beam hb)) hok]
              simp

/-- The metadata patch never changes the schema's fields. -/
theorem update_schema_fields (pt : ParquetTable) (h : Heap) (rs : List Granule)
    (sp : Schema) (hp : Heap)
    (hu : update_schema_geo_metadata pt h rs = .ok (sp, hp)) :
    sp.fields = pt.schema.fields := by
  unfold update_schema_geo_metadata at hu
  repeat' split at hu
  all_goals cases hu
  rfl

/-- C7 (amended): for any granule list in which exactly one submitted
per-granule task fails — at any position, with any exception per beam — while
the other N-1 tasks succeed, and whose run without the failing granule
completes, `write_results_by_partition` still issues exactly the writes of
that run (the output contains every successfully converted unit), prints the
failing task's exception once per beam, and the call itself still returns
successfully (`None`), carrying no skipped count. -/
theorem C7_partial_failure (pt : ParquetTable) (h : Heap)
    (pre post : List Granule) (g : Granule) (ebeam : String → PyError)
    {s1 s2 : Schema} {h1x h2x : Heap}
    (hbad : ∀ beam ∈ beams, chunks_to_tables g beam s2 = .error (ebeam beam))
    (hgood : ∀ beam ∈ beams, ∀ gr ∈ pre ++ post,
      ∃ ts, chunks_to_tables gr beam s2 = .ok ts)
    (hu1 : update_schema_geo_metadata pt h (pre ++ post) = .ok (s1, h1x))
    (hu2 : update_schema_geo_metadata pt h (pre ++ g :: post) = .ok (s2, h2x))
    (hok : (write_results_by_partition pt h (pre ++ post)).1.result = .ok ()) :
    (write_results_by_partition pt h (pre ++ g :: post)).1.events
        = (write_results_by_partition pt h (pre ++ post)).1.events
    ∧ (write_results_by_partition pt h (pre ++ g :: post)).1.printed
        = beams.map ebeam
    ∧ (write_results_by_partition pt h (pre ++ g :: post)).1.result = .ok () := by
  have hf : s1.fields = s2.fields := by
    rw [update_schema_fields pt h (pre ++ post) s1 h1x hu1,
      update_schema_fields pt h (pre ++ g :: post) s2 h2x hu2]
  unfold write_results_by_partition at hok ⊢
  rw [hu1] at hok
  dsimp only at hok
  have hres1 : (process_beams s1 (pre ++ post) beams).2.2 = .ok () := by
    cases hr : (process_beams s1 (pre ++ post) beams).2.2 with
    | error e2 =>
        rw [hr] at hok
        dsimp only at hok
        cases hok
    | ok u => rfl
  have hpp := process_beams_insert s1 s2 pre post g ebeam hf beams hbad hgood hres1
  rw [hu1, hu2]
  dsimp only
  rw [hpp, hres1]
  dsimp only
  exact ⟨rfl, rfl, rfl⟩

/-- C7 counterexample: with one of two tasks failing, the failure is only
printed — the call completes with the same `None` return as the failure-free
run, so no non-zero skipped/failed count is reported to the caller. -/
theorem C7_no_count_reported :
    ((write_results_by_partition cPT cHeap [mkGranule [5], badGranule]).1.printed
        = List.replicate 6 PyError.osError)
    ∧ ((write_results_by_partition cPT cHeap [mkGranule [5], badGranule]).1.result
        = (write_results_by_partition cPT cHeap [mkGranule [5]]).1.result) :=
  ⟨rfl, rfl⟩

/-- C7 witness: the amended statement at a concrete three-granule input with
the failing granule in the middle. -/
theorem C7_partial_failure_witness :
    ((write_results_by_partition cPT cHeap
        [mkGranule [5], badGranule, mkGranule [7]]).1.events
      = (write_results_by_partition cPT cHeap
          [mkGranule [5], mkGranule [7]]).1.events)
    ∧ ((write_results_by_partition cPT cHeap
        [mkGranule [5], badGranule, mkGranule [7]]).1.printed
      = beams.map (fun _ => PyError.osError))
    ∧ ((write_results_by_partition cPT cHeap
        [mkGranule [5], badGranule, mkGranule [7]]).1.result = .ok ()) :=
  C7_partial_failure cPT cHeap [mkGranule [5]] [mkGranule [7]] badGranule
    (fun _ => PyError.osError)
    (fun _ _ => rfl)
    (by
      intro beam hb gr hgr
      rcases List.mem_cons.mp hgr with rfl | hgr2
      · fin_cases hb <;> exact ⟨_, rfl⟩
      · rcases List.mem_cons.mp hgr2 with rfl | h3
        · fin_cases hb <;> exact ⟨_, rfl⟩
        · cases h3)
    rfl rfl rfl
